import Mathlib

/-!
Shallow embedding of the connectivity/OTA session controller
(src/application_code/tasks/ota.c) and the provisioning coordinator
(src/application_code/tasks/ap_mode_task.c).

The OTA demo task is modelled as a pure function over an environment
oracle that supplies the results of the external collaborators
(MQTT connect outcome, successive OTA agent state reads, the volatile
network-connected flag as read at each loop check, the OTA suspend
outcome).  Each iteration of the outer for-loop of vRunOTAUpdateDemo
produces the list of externally visible actions it performs, in order,
plus the flag saying whether the loop breaks (terminal) or goes around
again (reconnect path).
-/

/-- OTA_DEMO_CONN_RETRY_BASE_INTERVAL_SECONDS (ota.c line 90). -/
def OTA_DEMO_CONN_RETRY_BASE_INTERVAL_SECONDS : Nat := 4

/-- OTA_DEMO_CONN_RETRY_MAX_INTERVAL_SECONDS (ota.c line 95). -/
def OTA_DEMO_CONN_RETRY_MAX_INTERVAL_SECONDS : Nat := 360

/-- OTA_DEMO_TASK_DELAY_SECONDS (ota.c line 85). -/
def OTA_DEMO_TASK_DELAY_SECONDS : Nat := 2

/-- OTA agent coarse states, in the order of OTA_State_t mirrored by
the _pStateStr table (ota.c lines 120-133). -/
inductive OTA_State where
  | AgentInit
  | Ready
  | RequestingJob
  | WaitingForJob
  | CreatingFile
  | RequestingFileBlock
  | WaitingForFileBlock
  | ClosingFile
  | Suspended
  | ShuttingDown
  | Stopped
  deriving DecidableEq, Repr

/-- OTA image states (aws_iot_ota_agent.h); the demo loop only tests
for eOTA_ImageState_Aborted (ota.c line 492). -/
inductive OTA_ImageState where
  | Unknown
  | Testing
  | Accepted
  | Rejected
  | Aborted
  deriving DecidableEq, Repr

/-- The update of the static _retryInterval performed at the top of
_connectionRetryDelay (ota.c lines 196-205): clamp the doubled interval
at the maximum. -/
def doubledInterval (retryInterval : Nat) : Nat :=
  if retryInterval * 2 ≥ OTA_DEMO_CONN_RETRY_MAX_INTERVAL_SECONDS then
    OTA_DEMO_CONN_RETRY_MAX_INTERVAL_SECONDS
  else
    retryInterval * 2

/-- The jitter term rand() % _retryInterval of ota.c line 208, taken
after _retryInterval has already been doubled and clamped; randVal is
the nonnegative value returned by rand(). -/
def retryJitter (doubled randVal : Nat) : Nat :=
  randVal % doubled

/-- Shallow embedding of _connectionRetryDelay (ota.c lines 192-214).
Input: the stored _retryInterval and the rand() draw.  Output: the new
stored _retryInterval and retryIntervalwithJitter, the number of
seconds slept (the code sleeps retryIntervalwithJitter * 1000 ms). -/
def connectionRetryDelay (retryInterval randVal : Nat) : Nat × Nat :=
  (doubledInterval retryInterval,
   doubledInterval retryInterval +
     retryJitter (doubledInterval retryInterval) randVal)

/-- The un-jittered retry interval after n consecutive calls of
_connectionRetryDelay starting from the initial value of _retryInterval
(ota.c line 118 initialises it to the base interval). -/
def retrySequence : Nat → Nat
  | 0 => OTA_DEMO_CONN_RETRY_BASE_INTERVAL_SECONDS
  | n + 1 => doubledInterval (retrySequence n)

/-- Events that mutate the retry state of the OTA demo task: a
successful connection (ota.c line 472 resets _retryInterval to the
base) or a call of _connectionRetryDelay after a failure or a
disconnect (ota.c line 535). -/
inductive RetryEvent where
  | success
  | retry
  deriving DecidableEq, Repr

/-- One retry-state transition.  The state is (attempt, currentDelay):
currentDelay is the stored _retryInterval; attempt is the ghost count
of _connectionRetryDelay calls since the last successful connection
(the C file keeps no attempt variable, so this component is a ghost
counter of retry events, reset on success). -/
def retryStep : Nat × Nat → RetryEvent → Nat × Nat
  | _, RetryEvent.success => (0, OTA_DEMO_CONN_RETRY_BASE_INTERVAL_SECONDS)
  | st, RetryEvent.retry => (st.1 + 1, doubledInterval st.2)

/-- The retry state reached after a list of events, from the initial
state (0 attempts, _retryInterval = base, ota.c line 118). -/
def retryRun (evs : List RetryEvent) : Nat × Nat :=
  evs.foldl retryStep (0, OTA_DEMO_CONN_RETRY_BASE_INTERVAL_SECONDS)

/-- Externally visible actions of one iteration of the for-loop of
vRunOTAUpdateDemo (ota.c lines 432-536). -/
inductive OtaAction where
  /-- _retryInterval := base on successful connect (line 472). -/
  | setRetryInterval (seconds : Nat)
  /-- _networkConnected := true on successful connect (line 475). -/
  | setNetworkConnected (b : Bool)
  /-- OTA_Resume(&xOTAConnectionCtx) (line 480). -/
  | otaResume
  /-- OTA_AgentInit(ctx, thingName, App_OTACompleteCallback, ~0) (line 484). -/
  | otaAgentInit
  /-- One monitoring tick: IotClock_SleepMs + statistics log (lines 495-498). -/
  | sleepLog
  /-- OTA_Suspend() (line 506). -/
  | otaSuspend
  /-- One suspend-completion poll tick: IotClock_SleepMs (line 511). -/
  | pollSuspendTick
  /-- OTA_AgentShutdown(pdMS_TO_TICKS(10 * 1000)) (line 519); the
  argument is recorded in milliseconds. -/
  | otaAgentShutdown (timeoutMs : Nat)
  /-- IotMqtt_Disconnect(_mqttConnection, 0) (line 523). -/
  | mqttDisconnect
  /-- _connectionRetryDelay() (line 535). -/
  | retryDelay
  deriving DecidableEq, Repr

/-- Environment oracle for one iteration of the vRunOTAUpdateDemo loop:
the outcomes of the external collaborators, in the order the code
consults them. -/
structure OtaEnv where
  /-- Result of _establishMqttConnection (line 460). -/
  connectOk : Bool
  /-- OTA_GetAgentState() at the suspended check (line 478). -/
  stateAtConnect : OTA_State
  /-- Successive reads of (OTA_GetAgentState(), OTA_GetImageState(),
  _networkConnected) made by the monitoring while-condition (line 492);
  _networkConnected is volatile and may be flipped to false by
  prvNetworkDisconnectCallback between reads. -/
  monitorObs : List (OTA_State × OTA_ImageState × Bool)
  /-- Whether OTA_Suspend() returned kOTA_Err_None (line 506). -/
  suspendOk : Bool
  /-- Successive OTA_GetAgentState() reads of the suspend-completion
  poll loop (line 508). -/
  suspendPollObs : List OTA_State
  deriving Repr

/-- The monitoring while-condition of ota.c line 492:
eState != Stopped && eImageState != Aborted && _networkConnected,
with the short-circuit evaluation order of the source. -/
def monitorContinue (ob : OTA_State × OTA_ImageState × Bool) : Bool :=
  if ob.1 = OTA_State.Stopped then false
  else if ob.2.1 = OTA_ImageState.Aborted then false
  else ob.2.2

/-- The monitoring loop (ota.c lines 492-499): consumes observations
while the condition holds (each such observation costs one sleepLog
tick) and returns the tick count together with the observation on
which the condition failed; none if the oracle list is exhausted
before the loop exits (the loop would still be running). -/
def monitorLoop : List (OTA_State × OTA_ImageState × Bool) →
    Option (Nat × (OTA_State × OTA_ImageState × Bool))
  | [] => none
  | ob :: rest =>
      if monitorContinue ob then
        (monitorLoop rest).map (fun p => (p.1 + 1, p.2))
      else
        some (0, ob)

/-- The suspend-completion poll loop (ota.c lines 508-512): reads the
agent state until it is Suspended, sleeping one tick per non-Suspended
read; returns the number of ticks, or none if the oracle list runs out
before a Suspended read (the loop would still be running). -/
def suspendPoll : List OTA_State → Option Nat
  | [] => none
  | s :: rest =>
      if s = OTA_State.Suspended then some 0
      else (suspendPoll rest).map (· + 1)

/-- The actions performed between a successful MQTT connect and the
monitoring loop (ota.c lines 466-487): reset _retryInterval, set
_networkConnected, OTA_Resume only when the agent state is Suspended,
and then OTA_AgentInit unconditionally. -/
def connectActions (stateAtConnect : OTA_State) : List OtaAction :=
  [OtaAction.setRetryInterval OTA_DEMO_CONN_RETRY_BASE_INTERVAL_SECONDS,
   OtaAction.setNetworkConnected true] ++
  (if stateAtConnect = OTA_State.Suspended then [OtaAction.otaResume] else []) ++
  [OtaAction.otaAgentInit]

/-- One iteration of the for-loop of vRunOTAUpdateDemo (ota.c
lines 432-536): the list of actions performed and whether the loop
breaks (true, the terminal shutdown path of lines 515-527) or falls
through to the next connection attempt (false).  After a successful
connect _mqttConnection is non-null, so the line 521 null check
passes and IotMqtt_Disconnect runs on the shutdown path.  Returns
none when an oracle list is too short, i.e. when an inner loop is
still running. -/
def sessionIteration (env : OtaEnv) : Option (List OtaAction × Bool) :=
  if env.connectOk then
    match monitorLoop env.monitorObs with
    | none => none
    | some (ticks, exitOb) =>
        if exitOb.2.2 = false then
          if env.suspendOk then
            match suspendPoll env.suspendPollObs with
            | none => none
            | some pticks =>
                some (connectActions env.stateAtConnect ++
                      List.replicate ticks OtaAction.sleepLog ++
                      [OtaAction.otaSuspend] ++
                      List.replicate pticks OtaAction.pollSuspendTick ++
                      [OtaAction.retryDelay], false)
          else
            some (connectActions env.stateAtConnect ++
                  List.replicate ticks OtaAction.sleepLog ++
                  [OtaAction.otaSuspend, OtaAction.retryDelay], false)
        else
          some (connectActions env.stateAtConnect ++
                List.replicate ticks OtaAction.sleepLog ++
                [OtaAction.otaAgentShutdown 10000, OtaAction.mqttDisconnect],
                true)
  else
    some ([OtaAction.retryDelay], false)

/-- The action trace of one iteration (empty when the iteration does
not finish). -/
def sessionTrace (env : OtaEnv) : List OtaAction :=
  match sessionIteration env with
  | some (tr, _) => tr
  | none => []

/-- Whether the iteration ends in the break of ota.c line 526. -/
def sessionBreaks (env : OtaEnv) : Bool :=
  match sessionIteration env with
  | some (_, b) => b
  | none => true

/-- Environment: successful connect, then the disconnect callback
flips _networkConnected to false during the second monitor check; the
suspend succeeds and the second poll read reports Suspended. -/
def envLost : OtaEnv :=
  { connectOk := true
    stateAtConnect := OTA_State.WaitingForJob
    monitorObs := [(OTA_State.WaitingForJob, OTA_ImageState.Unknown, true),
                   (OTA_State.WaitingForJob, OTA_ImageState.Unknown, false)]
    suspendOk := true
    suspendPollObs := [OTA_State.WaitingForJob, OTA_State.Suspended] }

/-- Environment: reconnect while the OTA agent is Suspended; the
disconnect callback fires again immediately. -/
def envSusp : OtaEnv :=
  { connectOk := true
    stateAtConnect := OTA_State.Suspended
    monitorObs := [(OTA_State.WaitingForJob, OTA_ImageState.Unknown, false)]
    suspendOk := true
    suspendPollObs := [OTA_State.Suspended] }

/-- Environment: the OTA agent reports Stopped while the network is
still connected. -/
def envStop : OtaEnv :=
  { connectOk := true
    stateAtConnect := OTA_State.WaitingForJob
    monitorObs := [(OTA_State.WaitingForJob, OTA_ImageState.Unknown, true),
                   (OTA_State.Stopped, OTA_ImageState.Unknown, true)]
    suspendOk := true
    suspendPollObs := [] }

/-- Environment: the OTA image state becomes Aborted while the network
is still connected. -/
def envAbort : OtaEnv :=
  { connectOk := true
    stateAtConnect := OTA_State.WaitingForJob
    monitorObs := [(OTA_State.WaitingForFileBlock, OTA_ImageState.Aborted, true)]
    suspendOk := true
    suspendPollObs := [] }

/-!
Provisioning coordinator (src/application_code/tasks/ap_mode_task.c).
-/

/-- PROVISIONING_INACTIVITY_TIMEOUT (ap_mode_task.c line 31). -/
def PROVISIONING_INACTIVITY_TIMEOUT : Nat := 600

/-- TI SimpleLink role values; the sources log status 0 as Station and
status 2 as AP (ap_mode_task.c lines 217-219), matching the SDK values
ROLE_STA = 0 and ROLE_AP = 2 (SDK header, not in this repository). -/
def ROLE_STA : Nat := 0

/-- ROLE_AP, see ROLE_STA. -/
def ROLE_AP : Nat := 2

/-- The PrvsnMode enum of ap_mode_task.c lines 43-48: AP = 0, SC = 1,
APSC = 2; HandleStrtdEvt passes PrvsnMode_APSC. -/
def PrvsnMode_APSC : Nat := 2

/-- SL_RET_CODE_PROVISIONING_IN_PROGRESS from the TI SimpleLink SDK
header (not in this repository); the exact value is immaterial to the
control flow of provisioningStart, which only compares against it. -/
def SL_RET_CODE_PROVISIONING_IN_PROGRESS : Int := -2014

/-- Externally visible driver calls of the provisioning coordinator. -/
inductive ProvAction where
  /-- sl_DeviceGet(SL_DEVICE_GENERAL, version) probe (lines 71-72). -/
  | slDeviceGetVersion
  /-- sl_WlanProvisioning(SL_WLAN_PROVISIONING_CMD_STOP, ROLE_STA, 0,
  NULL, 0) (lines 78-80). -/
  | wlanProvisioningStop
  /-- ConfigureSimpleLinkToDefaultState() (line 91): the radio
  default-state reset sequence of lines 115-212 (connection policy,
  address mode, scan policy, power, filters). -/
  | configureDefaultState
  /-- InitSimplelink(role) (line 105): records desiredRole and starts
  the device with SimpleLinkInitCallback (lines 234-249). -/
  | initSimplelinkRole (role : Nat)
  /-- sl_WlanProvisioning(mode, role, timeout, NULL, 0) start command
  (HandleStrtdEvt, lines 292-293). -/
  | wlanProvisioningStart (mode role timeout : Nat)
  deriving DecidableEq, Repr

/-- Environment oracle for provisioningStart: results of the driver
calls it makes, in order. -/
structure ProvEnv where
  /-- Return of the sl_DeviceGet probe (line 71). -/
  deviceGetRet : Int
  /-- Return of ConfigureSimpleLinkToDefaultState (line 91). -/
  configureRet : Int
  /-- Return of InitSimplelink (line 105). -/
  initRet : Int
  deriving Repr

/-- Shallow embedding of provisioningStart (ap_mode_task.c
lines 59-113): the driver calls performed and the returned status.
When the sl_DeviceGet probe reports that provisioning is already in
progress, the function stops it explicitly and returns
SL_RET_CODE_PROVISIONING_IN_PROGRESS without any further effect;
otherwise it resets the radio to its default state and, if that
succeeded, starts device role initialisation with ROLE_AP. -/
def provisioningStart (env : ProvEnv) : List ProvAction × Int :=
  if env.deviceGetRet = SL_RET_CODE_PROVISIONING_IN_PROGRESS then
    ([ProvAction.slDeviceGetVersion, ProvAction.wlanProvisioningStop],
     SL_RET_CODE_PROVISIONING_IN_PROGRESS)
  else if env.configureRet < 0 then
    ([ProvAction.slDeviceGetVersion, ProvAction.configureDefaultState],
     env.configureRet)
  else
    ([ProvAction.slDeviceGetVersion, ProvAction.configureDefaultState,
      ProvAction.initSimplelinkRole ROLE_AP],
     env.initRet)

/-- The two event-group bits of ap_mode_task.c lines 27-28:
simplelinkInitBit models SIMPLELINK_INIT (role confirmed) and
simplelinkErrorBit models SIMPLELINK_ERROR (role mismatch). -/
structure RoleFlags where
  simplelinkInitBit : Bool
  simplelinkErrorBit : Bool
  deriving DecidableEq, Repr

/-- Shallow embedding of SimpleLinkInitCallback (ap_mode_task.c
lines 214-232): fired from driver context with the role the device
started in; sets SIMPLELINK_INIT when it equals the recorded
desiredRole and SIMPLELINK_ERROR otherwise. -/
def SimpleLinkInitCallback (desiredRole status : Nat)
    (flags : RoleFlags) : RoleFlags :=
  if desiredRole = status then
    { flags with simplelinkInitBit := true }
  else
    { flags with simplelinkErrorBit := true }

/-- The xEventGroupWaitBits call of AP_Task (ap_mode_task.c
lines 338-343): waits on SIMPLELINK_INIT | SIMPLELINK_ERROR with
xClearOnExit = pdTRUE, so it returns the observed bits and clears
both waited-for bits. -/
def xEventGroupWaitBitsBothClear (flags : RoleFlags) :
    RoleFlags × RoleFlags :=
  (flags, { simplelinkInitBit := false, simplelinkErrorBit := false })

/-- The provisioning-protocol start performed by HandleStrtdEvt
(ap_mode_task.c lines 292-293): sl_WlanProvisioning(PrvsnMode_APSC,
ROLE_STA, PROVISIONING_INACTIVITY_TIMEOUT, NULL, 0). -/
def HandleStrtdEvt : ProvAction :=
  ProvAction.wlanProvisioningStart PrvsnMode_APSC ROLE_STA
    PROVISIONING_INACTIVITY_TIMEOUT

/-- The dispatch of one AP_Task loop turn on the bits returned by the
wait (ap_mode_task.c lines 344-351): the SIMPLELINK_ERROR branch is
empty in the source; the SIMPLELINK_INIT branch calls HandleStrtdEvt. -/
def apTaskDispatch (uxBits : RoleFlags) : List ProvAction :=
  (if uxBits.simplelinkErrorBit then ([] : List ProvAction) else []) ++
  (if uxBits.simplelinkInitBit then [HandleStrtdEvt] else [])

/-!
Helper lemmas.
-/

theorem doubledInterval_eq_min (d : Nat) :
    doubledInterval d = min (2 * d) OTA_DEMO_CONN_RETRY_MAX_INTERVAL_SECONDS := by
  unfold doubledInterval OTA_DEMO_CONN_RETRY_MAX_INTERVAL_SECONDS
  split <;> omega

theorem doubledInterval_pos (d : Nat) (hd : 0 < d) : 0 < doubledInterval d := by
  unfold doubledInterval OTA_DEMO_CONN_RETRY_MAX_INTERVAL_SECONDS
  split <;> omega

theorem doubledInterval_le (d : Nat) :
    doubledInterval d ≤ OTA_DEMO_CONN_RETRY_MAX_INTERVAL_SECONDS := by
  unfold doubledInterval OTA_DEMO_CONN_RETRY_MAX_INTERVAL_SECONDS
  split <;> omega

theorem retryStep_snd_le (st : Nat × Nat) (e : RetryEvent) :
    (retryStep st e).2 ≤ OTA_DEMO_CONN_RETRY_MAX_INTERVAL_SECONDS := by
  cases e with
  | success =>
      simp [retryStep, OTA_DEMO_CONN_RETRY_BASE_INTERVAL_SECONDS,
            OTA_DEMO_CONN_RETRY_MAX_INTERVAL_SECONDS]
  | retry => exact doubledInterval_le st.2

theorem foldl_retryStep_snd_le (evs : List RetryEvent) (st : Nat × Nat)
    (h : st.2 ≤ OTA_DEMO_CONN_RETRY_MAX_INTERVAL_SECONDS) :
    (evs.foldl retryStep st).2 ≤ OTA_DEMO_CONN_RETRY_MAX_INTERVAL_SECONDS := by
  induction evs generalizing st with
  | nil => exact h
  | cons e rest ih =>
      simpa [List.foldl] using ih (retryStep st e) (retryStep_snd_le st e)

/-!
Claim C3 - _connectionRetryDelay behaviour.

The claim as frozen says the jitter is uniformly distributed over the
CLOSED interval [0, doubled].  The source computes the jitter as
rand() % _retryInterval after the doubling, so the jitter lies in the
half-open range [0, doubled): the value doubled itself is never drawn.
-/

/-- C3 counterexample: with stored delay 4 the doubled interval is 8,
and no rand() value can produce the jitter value 8, so the jitter is
not distributed over the closed interval [0, doubled]. -/
theorem retryJitterNeverEqualsDoubled :
    doubledInterval 4 = 8 ∧ ¬ ∃ r : Nat, retryJitter 8 r = 8 := by
  constructor
  · rfl
  · rintro ⟨r, hr⟩
    have : r % 8 < 8 := Nat.mod_lt r (by decide)
    simp [retryJitter] at hr
    omega

/-- C3 (amended): for a positive stored delay d, _connectionRetryDelay
stores doubled = min(2*d, maxDelay) as the new delay, the jitter lies
in the half-open range [0, doubled) and every value of that range is
attainable, and the slept delay equals doubled + jitter. -/
theorem connectionRetryDelaySpec (d r : Nat) (hd : 0 < d) :
    (connectionRetryDelay d r).1 =
      min (2 * d) OTA_DEMO_CONN_RETRY_MAX_INTERVAL_SECONDS ∧
    retryJitter (doubledInterval d) r < doubledInterval d ∧
    (connectionRetryDelay d r).2 =
      doubledInterval d + retryJitter (doubledInterval d) r ∧
    ∀ j, j < doubledInterval d → ∃ r2, retryJitter (doubledInterval d) r2 = j := by
  refine ⟨doubledInterval_eq_min d, ?_, rfl, ?_⟩
  · exact Nat.mod_lt r (doubledInterval_pos d hd)
  · intro j hj
    exact ⟨j, Nat.mod_eq_of_lt hj⟩

/-- C3 witness: the amended theorem evaluated at stored delay 4 and
rand() draw 13. -/
theorem connectionRetryDelaySpecWitness :
    0 < 4 ∧
    ((connectionRetryDelay 4 13).1 =
       min (2 * 4) OTA_DEMO_CONN_RETRY_MAX_INTERVAL_SECONDS ∧
     retryJitter (doubledInterval 4) 13 < doubledInterval 4 ∧
     (connectionRetryDelay 4 13).2 =
       doubledInterval 4 + retryJitter (doubledInterval 4) 13 ∧
     ∀ j, j < doubledInterval 4 →
       ∃ r2, retryJitter (doubledInterval 4) r2 = j) :=
  ⟨by decide, connectionRetryDelaySpec 4 13 (by decide)⟩

/-- C4: the un-jittered component of the backoff delay after n
consecutive _connectionRetryDelay calls equals min(base * 2^n,
maxDelay) (proved for every n, which subsumes n ≥ 1), and with
base = 4, maxDelay = 360 the successive values for n = 1..8 are
8, 16, 32, 64, 128, 256, 360, 360 (and stay 360 thereafter by the
closed form). -/
theorem otaBackoffUnjittered :
    (∀ n, retrySequence n =
       min (OTA_DEMO_CONN_RETRY_BASE_INTERVAL_SECONDS * 2 ^ n)
           OTA_DEMO_CONN_RETRY_MAX_INTERVAL_SECONDS) ∧
    ((List.range 8).map (fun k => retrySequence (k + 1)) =
       [8, 16, 32, 64, 128, 256, 360, 360]) := by
  constructor
  · intro n
    induction n with
    | zero => decide
    | succ n ih =>
        have hstep : retrySequence (n + 1) = doubledInterval (retrySequence n) := rfl
        rw [hstep, ih, doubledInterval_eq_min]
        have hpow : (2 : Nat) ^ (n + 1) = 2 ^ n * 2 := pow_succ 2 n
        rw [hpow]
        unfold OTA_DEMO_CONN_RETRY_BASE_INTERVAL_SECONDS
          OTA_DEMO_CONN_RETRY_MAX_INTERVAL_SECONDS
        generalize (2 : Nat) ^ n = x
        omega
  · decide

/-- C5: in every reachable retry state the current delay is at most
maxDelay; any successful connection resets the state to (attempt 0,
base delay); and after any success the next failure doubles the base
to an un-jittered delay of 8. -/
theorem otaRetryResetAndInvariant :
    (∀ evs, (retryRun evs).2 ≤ OTA_DEMO_CONN_RETRY_MAX_INTERVAL_SECONDS) ∧
    (∀ evs, retryRun (evs ++ [RetryEvent.success]) =
       (0, OTA_DEMO_CONN_RETRY_BASE_INTERVAL_SECONDS)) ∧
    (∀ evs, doubledInterval (retryRun (evs ++ [RetryEvent.success])).2 = 8) := by
  have hreset : ∀ evs, retryRun (evs ++ [RetryEvent.success]) =
      (0, OTA_DEMO_CONN_RETRY_BASE_INTERVAL_SECONDS) := by
    intro evs
    unfold retryRun
    rw [List.foldl_append]
    rfl
  refine ⟨?_, hreset, ?_⟩
  · intro evs
    exact foldl_retryStep_snd_le evs _ (by decide)
  · intro evs
    rw [hreset evs]
    decide

/-!
Claim C1 - suspend on disconnect loss.

The claim as frozen says the controller closes the transport session
after the engine reports Suspended.  In the source the
_networkConnected == false branch (ota.c lines 503-514) suspends and
polls but never calls IotMqtt_Disconnect; only the still-connected
branch (lines 516-527) closes the MQTT connection.  After the suspend
path the iteration falls through to _connectionRetryDelay and
reconnects.
-/

/-- C1 counterexample: in a run where the disconnect callback fires
during the monitoring loop, the suspend is requested and completes,
yet no IotMqtt_Disconnect ever appears in the action trace, and the
loop goes around to reconnect. -/
theorem otaDisconnectPathNoSessionClose :
    OtaAction.otaSuspend ∈ sessionTrace envLost ∧
    OtaAction.mqttDisconnect ∉ sessionTrace envLost ∧
    sessionBreaks envLost = false := by decide

/-- C1 (amended): whenever the disconnect signal is lost during the
engine-monitoring loop, the controller requests suspend, polls the
engine state until it reports Suspended, and returns to the
reconnect path after the backoff delay, WITHOUT closing the transport
session. -/
theorem otaSuspendOnDisconnectLoss (e : OtaEnv) (k p : Nat)
    (ob : OTA_State × OTA_ImageState × Bool)
    (hc : e.connectOk = true)
    (hm : monitorLoop e.monitorObs = some (k, ob))
    (hconn : ob.2.2 = false)
    (hs : e.suspendOk = true)
    (hp : suspendPoll e.suspendPollObs = some p) :
    sessionIteration e =
      some (connectActions e.stateAtConnect ++
            List.replicate k OtaAction.sleepLog ++
            [OtaAction.otaSuspend] ++
            List.replicate p OtaAction.pollSuspendTick ++
            [OtaAction.retryDelay], false) ∧
    OtaAction.mqttDisconnect ∉ sessionTrace e := by
  have hsess : sessionIteration e =
      some (connectActions e.stateAtConnect ++
            List.replicate k OtaAction.sleepLog ++
            [OtaAction.otaSuspend] ++
            List.replicate p OtaAction.pollSuspendTick ++
            [OtaAction.retryDelay], false) := by
    simp [sessionIteration, hc, hm, hconn, hs, hp]
  refine ⟨hsess, ?_⟩
  unfold sessionTrace
  rw [hsess]
  by_cases hst : e.stateAtConnect = OTA_State.Suspended <;>
    simp [connectActions, hst, List.mem_replicate]

/-- C1 witness: the amended theorem applied to the concrete
environment envLost. -/
theorem otaSuspendOnDisconnectLossWitness :
    envLost.connectOk = true ∧
    monitorLoop envLost.monitorObs =
      some (1, (OTA_State.WaitingForJob, OTA_ImageState.Unknown, false)) ∧
    suspendPoll envLost.suspendPollObs = some 1 ∧
    (sessionIteration envLost =
       some (connectActions envLost.stateAtConnect ++
             List.replicate 1 OtaAction.sleepLog ++
             [OtaAction.otaSuspend] ++
             List.replicate 1 OtaAction.pollSuspendTick ++
             [OtaAction.retryDelay], false) ∧
     OtaAction.mqttDisconnect ∉ sessionTrace envLost) :=
  ⟨rfl, by decide, by decide,
   otaSuspendOnDisconnectLoss envLost 1 1
     (OTA_State.WaitingForJob, OTA_ImageState.Unknown, false)
     rfl (by decide) rfl rfl (by decide)⟩

/-!
Claim C2 - resume versus init on (re)connect.

The claim as frozen says resume and init are exclusive alternatives.
In the source OTA_Resume runs only when the agent state is Suspended
(ota.c lines 478-481), but OTA_AgentInit at line 484 runs
unconditionally afterwards - the comment in the source notes that a
resume is followed by the init, which clears the statistics.
-/

/-- C2 counterexample: on a successful reconnect with the agent
Suspended, the trace contains OTA_Resume AND OTA_AgentInit, so init
is not exclusive to the non-suspended case. -/
theorem otaInitAfterResume :
    envSusp.stateAtConnect = OTA_State.Suspended ∧
    OtaAction.otaResume ∈ sessionTrace envSusp ∧
    OtaAction.otaAgentInit ∈ sessionTrace envSusp := by decide

/-- C2 (amended): on every transition from a successful connection
into the engine-running state, resume(sessionContext) is issued
exactly when the update engine state is Suspended, and
init(sessionContext, ...) is issued unconditionally (after the resume
when there is one); so a successful reconnect after a suspend triggers
resume() followed by init(), not init() alone. -/
theorem otaResumeIffSuspendedInitAlways (e : OtaEnv)
    (tr : List OtaAction) (b : Bool)
    (hc : e.connectOk = true)
    (h : sessionIteration e = some (tr, b)) :
    OtaAction.otaAgentInit ∈ tr ∧
    (OtaAction.otaResume ∈ tr ↔ e.stateAtConnect = OTA_State.Suspended) := by
  unfold sessionIteration at h
  rw [hc] at h
  simp only [if_true] at h
  rcases hml : monitorLoop e.monitorObs with _ | ⟨k, ob⟩ <;> rw [hml] at h <;>
    dsimp only at h
  · simp at h
  · by_cases hcn : ob.2.2 = false
    · rw [if_pos hcn] at h
      by_cases hsok : e.suspendOk = true
      · rw [if_pos hsok] at h
        rcases hsp : suspendPoll e.suspendPollObs with _ | p <;> rw [hsp] at h
        · simp at h
        · simp only [Option.some.injEq, Prod.mk.injEq] at h
          obtain ⟨h1, h2⟩ := h
          subst h1
          by_cases hst : e.stateAtConnect = OTA_State.Suspended <;>
            simp [connectActions, hst, List.mem_replicate]
      · rw [if_neg hsok] at h
        simp only [Option.some.injEq, Prod.mk.injEq] at h
        obtain ⟨h1, h2⟩ := h
        subst h1
        by_cases hst : e.stateAtConnect = OTA_State.Suspended <;>
          simp [connectActions, hst, List.mem_replicate]
    · rw [if_neg hcn] at h
      simp only [Option.some.injEq, Prod.mk.injEq] at h
      obtain ⟨h1, h2⟩ := h
      subst h1
      by_cases hst : e.stateAtConnect = OTA_State.Suspended <;>
        simp [connectActions, hst, List.mem_replicate]

/-- C2 witness: the amended theorem applied to the concrete suspended
reconnect environment envSusp. -/
theorem otaResumeIffSuspendedInitAlwaysWitness :
    envSusp.connectOk = true ∧
    sessionIteration envSusp =
      some (connectActions envSusp.stateAtConnect ++
            List.replicate 0 OtaAction.sleepLog ++
            [OtaAction.otaSuspend] ++
            List.replicate 0 OtaAction.pollSuspendTick ++
            [OtaAction.retryDelay], false) ∧
    (OtaAction.otaAgentInit ∈
       (connectActions envSusp.stateAtConnect ++
        List.replicate 0 OtaAction.sleepLog ++
        [OtaAction.otaSuspend] ++
        List.replicate 0 OtaAction.pollSuspendTick ++
        [OtaAction.retryDelay]) ∧
     (OtaAction.otaResume ∈
        (connectActions envSusp.stateAtConnect ++
         List.replicate 0 OtaAction.sleepLog ++
         [OtaAction.otaSuspend] ++
         List.replicate 0 OtaAction.pollSuspendTick ++
         [OtaAction.retryDelay]) ↔
      envSusp.stateAtConnect = OTA_State.Suspended)) :=
  ⟨rfl, by decide,
   otaResumeIffSuspendedInitAlways envSusp _ false rfl (by decide)⟩

/-- C6: when the engine-monitoring loop exits while the connection is
still up with the engine reporting Stopped, the controller requests
OTA_AgentShutdown with the bounded 10-second timeout, closes the MQTT
session (the shutdown result is not even consulted: the embedding
takes no shutdown outcome), and breaks out of the session loop - no
retry delay and no reconnect from this controller instance. -/
theorem otaShutdownOnStopped (e : OtaEnv) (k : Nat)
    (ob : OTA_State × OTA_ImageState × Bool)
    (hc : e.connectOk = true)
    (hm : monitorLoop e.monitorObs = some (k, ob))
    (hstop : ob.1 = OTA_State.Stopped)
    (hconn : ob.2.2 = true) :
    sessionIteration e =
      some (connectActions e.stateAtConnect ++
            List.replicate k OtaAction.sleepLog ++
            [OtaAction.otaAgentShutdown 10000, OtaAction.mqttDisconnect],
            true) ∧
    sessionBreaks e = true ∧
    OtaAction.retryDelay ∉ sessionTrace e ∧
    OtaAction.mqttDisconnect ∈ sessionTrace e := by
  have hsess : sessionIteration e =
      some (connectActions e.stateAtConnect ++
            List.replicate k OtaAction.sleepLog ++
            [OtaAction.otaAgentShutdown 10000, OtaAction.mqttDisconnect],
            true) := by
    simp [sessionIteration, hc, hm, hconn]
  refine ⟨hsess, ?_, ?_, ?_⟩
  · unfold sessionBreaks
    rw [hsess]
  · unfold sessionTrace
    rw [hsess]
    by_cases hst : e.stateAtConnect = OTA_State.Suspended <;>
      simp [connectActions, hst, List.mem_replicate]
  · unfold sessionTrace
    rw [hsess]
    simp

/-- C6 witness: the theorem applied to the concrete environment
envStop in which the second monitor check reads Stopped while still
connected. -/
theorem otaShutdownOnStoppedWitness :
    envStop.connectOk = true ∧
    monitorLoop envStop.monitorObs =
      some (1, (OTA_State.Stopped, OTA_ImageState.Unknown, true)) ∧
    (sessionIteration envStop =
       some (connectActions envStop.stateAtConnect ++
             List.replicate 1 OtaAction.sleepLog ++
             [OtaAction.otaAgentShutdown 10000, OtaAction.mqttDisconnect],
             true) ∧
     sessionBreaks envStop = true ∧
     OtaAction.retryDelay ∉ sessionTrace envStop ∧
     OtaAction.mqttDisconnect ∈ sessionTrace envStop) :=
  ⟨rfl, by decide,
   otaShutdownOnStopped envStop 1
     (OTA_State.Stopped, OTA_ImageState.Unknown, true)
     rfl (by decide) rfl rfl⟩

/-- C10: the monitoring loop also exits when the image state becomes
Aborted (the while-condition of ota.c line 492 fails on any Aborted
read), and when that happens while still connected the controller
takes exactly the same terminal shutdown-and-close-session path as for
engine Stopped. -/
theorem otaShutdownOnImageAborted (e : OtaEnv) (k : Nat)
    (ob : OTA_State × OTA_ImageState × Bool)
    (hc : e.connectOk = true)
    (hm : monitorLoop e.monitorObs = some (k, ob))
    (hab : ob.2.1 = OTA_ImageState.Aborted)
    (hconn : ob.2.2 = true) :
    monitorContinue ob = false ∧
    sessionIteration e =
      some (connectActions e.stateAtConnect ++
            List.replicate k OtaAction.sleepLog ++
            [OtaAction.otaAgentShutdown 10000, OtaAction.mqttDisconnect],
            true) ∧
    sessionBreaks e = true := by
  have hsess : sessionIteration e =
      some (connectActions e.stateAtConnect ++
            List.replicate k OtaAction.sleepLog ++
            [OtaAction.otaAgentShutdown 10000, OtaAction.mqttDisconnect],
            true) := by
    simp [sessionIteration, hc, hm, hconn]
  refine ⟨?_, hsess, ?_⟩
  · unfold monitorContinue
    rw [hab]
    by_cases hst : ob.1 = OTA_State.Stopped <;> simp [hst]
  · unfold sessionBreaks
    rw [hsess]

/-- C10 witness: the theorem applied to the concrete environment
envAbort in which the first monitor check reads an Aborted image state
while still connected. -/
theorem otaShutdownOnImageAbortedWitness :
    envAbort.connectOk = true ∧
    monitorLoop envAbort.monitorObs =
      some (0, (OTA_State.WaitingForFileBlock, OTA_ImageState.Aborted, true)) ∧
    (monitorContinue
       (OTA_State.WaitingForFileBlock, OTA_ImageState.Aborted, true) = false ∧
     sessionIteration envAbort =
       some (connectActions envAbort.stateAtConnect ++
             List.replicate 0 OtaAction.sleepLog ++
             [OtaAction.otaAgentShutdown 10000, OtaAction.mqttDisconnect],
             true) ∧
     sessionBreaks envAbort = true) :=
  ⟨rfl, by decide,
   otaShutdownOnImageAborted envAbort 0
     (OTA_State.WaitingForFileBlock, OTA_ImageState.Aborted, true)
     rfl (by decide) rfl rfl⟩

/-- C7: when the sl_DeviceGet probe reports that provisioning is
already in progress, provisioningStart issues the explicit stop
command, returns SL_RET_CODE_PROVISIONING_IN_PROGRESS to its caller
(so the state machine stays put), and performs neither the radio
default-state reset nor the device role initialisation. -/
theorem provisioningStartAlreadyInProgress (env : ProvEnv)
    (h : env.deviceGetRet = SL_RET_CODE_PROVISIONING_IN_PROGRESS) :
    provisioningStart env =
      ([ProvAction.slDeviceGetVersion, ProvAction.wlanProvisioningStop],
       SL_RET_CODE_PROVISIONING_IN_PROGRESS) ∧
    ProvAction.wlanProvisioningStop ∈ (provisioningStart env).1 ∧
    ProvAction.configureDefaultState ∉ (provisioningStart env).1 ∧
    ProvAction.initSimplelinkRole ROLE_AP ∉ (provisioningStart env).1 := by
  have hps : provisioningStart env =
      ([ProvAction.slDeviceGetVersion, ProvAction.wlanProvisioningStop],
       SL_RET_CODE_PROVISIONING_IN_PROGRESS) := by
    simp [provisioningStart, h]
  refine ⟨hps, ?_, ?_, ?_⟩ <;> rw [hps] <;> simp

/-- C7 witness: the theorem applied to a concrete environment whose
device probe reports provisioning in progress. -/
theorem provisioningStartAlreadyInProgressWitness :
    (ProvEnv.mk SL_RET_CODE_PROVISIONING_IN_PROGRESS 0 0).deviceGetRet =
      SL_RET_CODE_PROVISIONING_IN_PROGRESS ∧
    (provisioningStart (ProvEnv.mk SL_RET_CODE_PROVISIONING_IN_PROGRESS 0 0) =
       ([ProvAction.slDeviceGetVersion, ProvAction.wlanProvisioningStop],
        SL_RET_CODE_PROVISIONING_IN_PROGRESS) ∧
     ProvAction.wlanProvisioningStop ∈
       (provisioningStart (ProvEnv.mk SL_RET_CODE_PROVISIONING_IN_PROGRESS 0 0)).1 ∧
     ProvAction.configureDefaultState ∉
       (provisioningStart (ProvEnv.mk SL_RET_CODE_PROVISIONING_IN_PROGRESS 0 0)).1 ∧
     ProvAction.initSimplelinkRole ROLE_AP ∉
       (provisioningStart (ProvEnv.mk SL_RET_CODE_PROVISIONING_IN_PROGRESS 0 0)).1) :=
  ⟨rfl,
   provisioningStartAlreadyInProgress
     (ProvEnv.mk SL_RET_CODE_PROVISIONING_IN_PROGRESS 0 0) rfl⟩

/-- C8: for every firing of SimpleLinkInitCallback on cleared flags,
the SIMPLELINK_INIT bit is set exactly when the reported role equals
desiredRole and the SIMPLELINK_ERROR bit exactly otherwise, so exactly
one of the two bits is set per start attempt; and the coordinator wait
(xEventGroupWaitBits with xClearOnExit = pdTRUE) returns those bits and
clears both, restoring the cleared state before the next attempt can
set a bit again. -/
theorem simpleLinkInitCallbackExclusive (desiredRole status : Nat) :
    (SimpleLinkInitCallback desiredRole status (RoleFlags.mk false false) =
       if desiredRole = status then RoleFlags.mk true false
       else RoleFlags.mk false true) ∧
    ((SimpleLinkInitCallback desiredRole status
        (RoleFlags.mk false false)).simplelinkInitBit ≠
     (SimpleLinkInitCallback desiredRole status
        (RoleFlags.mk false false)).simplelinkErrorBit) ∧
    xEventGroupWaitBitsBothClear
        (SimpleLinkInitCallback desiredRole status (RoleFlags.mk false false)) =
      (SimpleLinkInitCallback desiredRole status (RoleFlags.mk false false),
       RoleFlags.mk false false) := by
  by_cases h : desiredRole = status <;>
    simp [SimpleLinkInitCallback, xEventGroupWaitBitsBothClear, h]

/-- C9: when the coordinator task consumes the SIMPLELINK_INIT
(role-confirmed) bit it starts the provisioning protocol with
inactivity timeout exactly 600 time-units (via HandleStrtdEvt); when
it consumes the SIMPLELINK_ERROR (role-mismatch) bit it performs no
driver call at all and the while(true) loop returns to waiting for the
next role event. -/
theorem apTaskRoleDispatch :
    apTaskDispatch (RoleFlags.mk true false) =
      [ProvAction.wlanProvisioningStart PrvsnMode_APSC ROLE_STA 600] ∧
    PROVISIONING_INACTIVITY_TIMEOUT = 600 ∧
    HandleStrtdEvt =
      ProvAction.wlanProvisioningStart PrvsnMode_APSC ROLE_STA
        PROVISIONING_INACTIVITY_TIMEOUT ∧
    apTaskDispatch (RoleFlags.mk false true) = [] := by decide
